import Mathlib

/-!
Shallow embedding of the KOSH bridge service
(src/src/kosh_frontend/src/lib/bridgeService.ts).

Modelling conventions:
* TypeScript strings are Lean `String`s; the JS `amount` number is a `Rat`
  (the code only multiplies it, compares it to zero and floors it);
  byte arrays are `List Nat`.
* The serialized prepared transaction (an XDR string produced by the
  Stellar SDK from the data the code passes in) is modelled by the record
  `LockTxn` of exactly that data; the SDK serializer is injective, so
  transaction identity is record identity.
* Every remote call (Horizon REST, Soroban RPC, the custodial actor) is
  answered by an environment `ActorEnv` that fixes, for one attempt, the
  response of each call.  The orchestration functions return, besides the
  value the code returns or throws, the ordered list of remote calls they
  performed (`Event`) and the ordered list of progress percentages they
  emitted, so temporal claims become claims about those lists.
* SDK-internal address validation and RPC transport failures of
  getNetwork/getAccount/prepareTransaction are not modelled: the
  environment always answers them; all claims below concern attempts in
  which the build step itself does not throw.
-/

namespace Kosh

/-- A bridge request (TypeScript interface `BridgeParams`). -/
structure BridgeParams where
  userAddress : String
  fromToken : String
  destToken : String
  amount : Rat
  destChain : String
  recipientAddress : String
deriving Repr, DecidableEq

/-- Resolved network configuration (TypeScript interface `BridgeConfig`). -/
structure BridgeConfig where
  contractId : String
  network : String
  rpcUrl : String
  networkPassphrase : String
deriving Repr, DecidableEq

/-- `getBridgeConfig` (bridgeService.ts lines 215-224): the ternaries on
`isTestnet = network !== 'stellar-mainnet'`. -/
def getBridgeConfig (network : String) : BridgeConfig :=
  let isTestnet : Bool := network != "stellar-mainnet"
  { contractId := "CDTA5IYGUGRI4PAGXJL7TPBEIC3EZY6V23ILF5EDVXFVLCGGMVOK4CRL"
    network := if isTestnet then "testnet" else "mainnet"
    rpcUrl := if isTestnet then "https://soroban-testnet.stellar.org"
              else "https://soroban-mainnet.stellar.org"
    networkPassphrase := if isTestnet then "Test SDF Network ; September 2015"
                         else "Public Global Stellar Network ; September 2015" }

/-- `StellarBridgeService` constructor default for `defaultBridge`
(bridgeService.ts line 98): `config.defaultBridge || "CDTA5…"`. -/
def constructorDefaultBridge : Option String → String
  | some s => if s ≠ "" then s else "CDTA5IYGUGRI4PAGXJL7TPBEIC3EZY6V23ILF5EDVXFVLCGGMVOK4CRL"
  | none => "CDTA5IYGUGRI4PAGXJL7TPBEIC3EZY6V23ILF5EDVXFVLCGGMVOK4CRL"

/-- `getChainName` (bridgeService.ts lines 227-234). -/
def getChainName (chainId : String) : String :=
  if chainId = "17000" then "Holsky Testnet"
  else if chainId = "8453" then "Base Mainnet"
  else "Chain " ++ chainId

/-- `getChainExplorerUrl` (bridgeService.ts lines 237-244). -/
def getChainExplorerUrl (chainId txHash : String) : String :=
  if chainId = "17000" then "https://holesky.etherscan.io/tx/" ++ txHash
  else if chainId = "8453" then "https://basescan.org/tx/" ++ txHash
  else "#" ++ txHash

/-- One character of the JS character class `[0-9a-fA-F]`. -/
def isHexDigitAny (c : Char) : Bool :=
  (('0' ≤ c && c ≤ '9') || ('a' ≤ c && c ≤ 'f')) || ('A' ≤ c && c ≤ 'F')

/-- The JS regex `^0x[a-fA-F0-9]{40}$` used for EVM recipient addresses. -/
def isEvmAddress (s : String) : Bool :=
  match s.data with
  | '0' :: 'x' :: rest => rest.length == 40 && rest.all isHexDigitAny
  | _ => false

/-- `validateBridgeParams` (bridgeService.ts lines 247-281), check for
check; JS falsiness of a string is emptiness, of the amount number it is
being zero. -/
def validateBridgeParams (p : BridgeParams) : Option String :=
  if p.userAddress = "" then
    some "User address is required"
  else if p.fromToken = "" ∨ p.fromToken ≠ "XLM" then
    some "Only XLM token is supported"
  else if p.destToken = "" ∨ (p.destToken ≠ "HOLSKEY" ∧ p.destToken ≠ "BASE") then
    some "Only HOLSKEY and BASE tokens are supported"
  else if p.amount = 0 ∨ p.amount ≤ 0 then
    some "Amount must be greater than 0"
  else if p.destChain = "" ∨ (p.destChain ≠ "17000" ∧ p.destChain ≠ "8453") then
    some "Only Holsky Testnet (17000) and Base Mainnet (8453) are supported"
  else if p.recipientAddress = "" then
    some "Recipient address is required"
  else if (p.destChain = "17000" ∨ p.destChain = "8453") ∧ isEvmAddress p.recipientAddress = false then
    some ((("Invalid recipient address format for " : String)) ++
      (if p.destChain = "17000" then "Holsky Testnet" else "Base Mainnet"))
  else
    none

/-- The sixteen lower-case hexadecimal digit characters, in value
order. -/
def lowerHexDigits : List Char :=
  ['0', '1', '2', '3'] ++ ['4', '5', '6', '7'] ++ ['8', '9', 'a', 'b'] ++ ['c', 'd', 'e', 'f']

/-- One character of the JS character class `[0-9a-f]` (hexToBytes runs
after `toLowerCase`). -/
def isLowerHexDigit (c : Char) : Bool :=
  decide (c ∈ lowerHexDigits)

/-- Value of a lower-case hexadecimal digit, as `parseInt(…, 16)` computes
it. -/
def hexVal (c : Char) : Nat :=
  if c ≤ '9' then c.toNat - 48 else c.toNat - 87

/-- Lower-case hexadecimal digit for a value below 16 (used to state the
round-trip property of `hexToBytes`). -/
def hexChar (n : Nat) : Char :=
  if n < 10 then Char.ofNat (n + 48) else Char.ofNat (n + 87)

/-- The decoding loop of `hexToBytes` (lines 122-125): consume the string
two characters at a time. -/
def decodePairs : List Char → List Nat
  | a :: b :: rest => (hexVal a * 16 + hexVal b) :: decodePairs rest
  | _ => []

/-- Re-encode bytes as lower-case hexadecimal characters. -/
def bytesToHexChars (bs : List Nat) : List Char :=
  bs.flatMap (fun b => [hexChar (b / 16), hexChar (b % 16)])

/-- Re-encode bytes as a lower-case hexadecimal string. -/
def bytesToHex (bs : List Nat) : String :=
  String.mk (bytesToHexChars bs)

/-- `s.replace(/^0x/, "")`: remove one leading, case-sensitive `0x`. -/
def strip0x (s : String) : String :=
  match s.data with
  | '0' :: 'x' :: rest => String.mk rest
  | _ => s

/-- `s.startsWith("0x")`. -/
def starts0x (s : String) : Bool :=
  match s.data with
  | '0' :: 'x' :: _ => true
  | _ => false

/-- `s.toLowerCase()` (character-wise lowering; the strings involved are
ASCII). -/
def lowerStr (s : String) : String :=
  String.mk (s.data.map Char.toLower)

/-- `s.trim()` on ASCII whitespace. -/
def jsTrim (s : String) : String :=
  String.mk (((s.data.dropWhile isJsSpace).reverse.dropWhile isJsSpace).reverse)
where
  isJsSpace (c : Char) : Bool := ((c == ' ') || (c == '\t')) || ((c == '\n') || (c == '\r'))

/-- `hexToBytes` (bridgeService.ts lines 117-127): lower-case, strip one
`0x`, require only hex digits and even length, else throw (modelled as
`none`); on success decode pairwise. -/
def hexToBytes (hex : String) : Option (List Nat) :=
  if (strip0x (lowerStr hex)).data.all isLowerHexDigit ∧
      (strip0x (lowerStr hex)).data.length % 2 = 0 then
    some (decodePairs (strip0x (lowerStr hex)).data)
  else
    none

/-- UTF-8 encoding of one unicode scalar value (`TextEncoder`). -/
def utf8EncodeChar (c : Char) : List Nat :=
  let n := c.toNat
  if n < 128 then [n]
  else if n < 2048 then [192 + n / 64, 128 + n % 64]
  else if n < 65536 then [224 + n / 4096, 128 + (n / 64) % 64, 128 + n % 64]
  else [240 + n / 262144, 128 + (n / 4096) % 64, 128 + (n / 64) % 64, 128 + n % 64]

/-- `new TextEncoder().encode(s)`. -/
def utf8Encode (s : String) : List Nat :=
  s.data.flatMap utf8EncodeChar

/-- The guard of `toBytes` (line 133):
`val.startsWith("0x") || /^[0-9a-fA-F]+$/.test(val.replace(/^0x/, ""))`. -/
def hexGuard (val : String) : Bool :=
  starts0x val || (!(strip0x val).data.isEmpty && (strip0x val).data.all isHexDigitAny)

/-- `toBytes` (bridgeService.ts lines 129-141): when the guard holds, try
`hexToBytes` and on its throw fall through to UTF-8; otherwise UTF-8. -/
def toBytes (val : String) : List Nat :=
  if hexGuard val then
    match hexToBytes val with
    | some bs => bs
    | none => utf8Encode val
  else
    utf8Encode val

/-- The data `createLockTransactionXDR` (lines 143-211) feeds into the
transaction it builds, prepares and serializes: the account sequence from
`server.getAccount`, the passphrase from `server.getNetwork`, and the six
ordered `lock` arguments.  Stands for the serialized unsigned XDR
string. -/
structure LockTxn where
  sequence : Int
  networkPassphrase : String
  source : String
  fromTokenAddr : String
  destToken : String
  inAmount : Int
  destChainBytes : List Nat
  recipient : String
deriving Repr, DecidableEq

/-- A remote call performed during one bridge attempt, in order. -/
inductive Event
  | horizonGetAccount (address : String)
  | rpcGetNetwork
  | rpcGetAccount (address : String)
  | rpcPrepareTransaction
  | stellarUserLockTxn (xdr : LockTxn) (network : String)
  | horizonGetTransaction (hash : String)
  | fetchStellarEvents (ledger : Nat) (destChain : String)
  | signTransactionStellar (userAddress : String) (xdr : LockTxn) (network : String)
  | submitTransaction (signedXdr : String) (network : String)
deriving Repr, DecidableEq

/-- The per-attempt answers of every remote service the code talks to.
`none` on a `Result`-shaped field is the `Err` variant (or, for the two
plain fetches, a thrown transport error). -/
structure ActorEnv where
  rpcPassphrase : String
  rpcSequence : Int
  horizonAccount : Option String
  horizonError : String
  lockResp : Option (Option String)
  txLedger : Option Nat
  releaseResp : Option String
  signResp : Option String
  signErr : String
  submitResp : Option (Option String)
  submitErr : String
deriving Repr, DecidableEq

/-- `Asset.native().contractId(networkPassphrase)`: the SDK derives the
native-asset contract id from the passphrase alone. -/
def nativeAssetContract (passphrase : String) : String :=
  "native-asset-contract:" ++ passphrase

/-- `createLockTransactionXDR` (lines 143-211) as the transaction value it
returns; its three RPC round-trips are recorded by the caller.  The
`fromToken` argument is always `null` at the call site (line 349), so the
native-asset contract is resolved. -/
def createLockTransactionXDR (env : ActorEnv) (p : BridgeParams) (inAmount : Int) : LockTxn :=
  { sequence := env.rpcSequence
    networkPassphrase := env.rpcPassphrase
    source := p.userAddress
    fromTokenAddr := nativeAssetContract env.rpcPassphrase
    destToken := p.destToken
    inAmount := inAmount
    destChainBytes := toBytes p.destChain
    recipient := p.recipientAddress }

/-- TypeScript `TransactionBuildResult`, restricted to the fields the
orchestrator reads; absent optional fields are `false`/`none`. -/
structure TransactionBuildResult where
  transactionXDR : LockTxn
  bridgeCompleted : Bool
  holeskyTxHash : Option String
  lockTxHash : Option String
deriving Repr, DecidableEq

/-- Value, remote-call list, progress emissions, and the two `window`
globals after `buildStellarTransaction` returns. -/
structure BuildOutcome where
  result : TransactionBuildResult
  events : List Event
  progress : List Nat
  window : Option String
  windowUrl : Option String
deriving Repr, DecidableEq

/-- `Math.floor(params.amount * 10_000_000)` (line 338): the mathematical
floor of the rational `amount * 10^7`, computed on the
numerator/denominator representation (`Int.fdiv` is floor division; the
denominator of a `Rat` is positive). -/
def amountToStroops (amount : Rat) : Int :=
  Int.fdiv (amount.num * 10000000) (amount.den : Int)

/-- The plain return object of lines 457-477 (no `bridgeCompleted`, no
hashes). -/
def buildFallback (xdr : LockTxn) : TransactionBuildResult :=
  { transactionXDR := xdr, bridgeCompleted := false, holeskyTxHash := none, lockTxHash := none }

/-- JS truthiness of an optional string. -/
def truthy : Option String → Bool
  | none => false
  | some s => s != ""

/-- JS `a || b` for an optional string `a` and a fallback. -/
def jsOrStr : Option String → String → String
  | some s, d => if s ≠ "" then s else d
  | none, d => d

/-- `buildStellarTransaction` (bridgeService.ts lines 318-482).  The three
RPC round-trips of the inner `createLockTransactionXDR` come first; with
an actor the lock is submitted for signing, the lock hash looked up on
Horizon, and index-and-release requested; every branch that does not
complete the bridge falls through to the plain return object of lines
457-477 (the inner try/catch of lines 381-452 swallows lookup errors). -/
def buildStellarTransaction (env : ActorEnv) (p : BridgeParams) (config : BridgeConfig)
    (hasActor : Bool) (window0 windowUrl0 : Option String) : BuildOutcome :=
  let amountStroops : Int := amountToStroops p.amount
  let xdr := createLockTransactionXDR env p amountStroops
  let ev0 : List Event :=
    [Event.rpcGetNetwork, Event.rpcGetAccount p.userAddress, Event.rpcPrepareTransaction]
  if hasActor then
    let ev1 := ev0 ++ [Event.stellarUserLockTxn xdr config.network]
    match env.lockResp with
    | some (some txHash) =>
      if txHash ≠ "" then
        let ev2 := ev1 ++ [Event.horizonGetTransaction txHash]
        match env.txLedger with
        | some ledger =>
          let ev3 := ev2 ++ [Event.fetchStellarEvents ledger p.destChain]
          match env.releaseResp with
          | some raw =>
            let hol := jsTrim raw
            if hol ≠ "" ∧ starts0x hol = true then
              { result := { transactionXDR := xdr, bridgeCompleted := true,
                            holeskyTxHash := some hol, lockTxHash := some txHash }
                events := ev3
                progress := [30, 40, 50, 70, 90, 100]
                window := some hol
                windowUrl := some (getChainExplorerUrl p.destChain hol) }
            else
              { result := buildFallback xdr, events := ev3, progress := [30, 40, 50],
                window := window0, windowUrl := windowUrl0 }
          | none =>
            { result := buildFallback xdr, events := ev3, progress := [30, 40, 50],
              window := window0, windowUrl := windowUrl0 }
        | none =>
          { result := buildFallback xdr, events := ev2, progress := [30, 40],
            window := window0, windowUrl := windowUrl0 }
      else
        { result := buildFallback xdr, events := ev1, progress := [30],
          window := window0, windowUrl := windowUrl0 }
    | some none =>
      { result := buildFallback xdr, events := ev1, progress := [30],
        window := window0, windowUrl := windowUrl0 }
    | none =>
      { result := buildFallback xdr, events := ev1, progress := [30],
        window := window0, windowUrl := windowUrl0 }
  else
    { result := buildFallback xdr, events := ev0, progress := [],
      window := window0, windowUrl := windowUrl0 }

/-- `contractDetails` of the TypeScript `BridgeResult`. -/
structure ContractDetails where
  contractId : String
  sequenceNumber : String
  network : String
  userAddress : String
  transactionXDR : Option LockTxn
  lockHash : Option String
deriving Repr, DecidableEq

/-- `bridgeDetails` of the TypeScript `BridgeResult`. -/
structure BridgeDetails where
  fromChain : String
  toChain : String
  amount : Rat
  token : String
  recipient : String
  contractExecution : Bool
deriving Repr, DecidableEq

/-- The TypeScript `BridgeResult`. -/
structure BridgeResult where
  success : Bool
  hash : String
  message : String
  explorerUrl : String
  contractDetails : ContractDetails
  bridgeDetails : BridgeDetails
deriving Repr, DecidableEq

deriving instance DecidableEq for Except

/-- Value (returned result or thrown message), remote-call list, progress
emissions, and the two `window` globals after `executeBridgeTransaction`
returns. -/
structure Outcome where
  result : Except String BridgeResult
  events : List Event
  progress : List Nat
  window : Option String
  windowUrl : Option String
deriving Repr, DecidableEq

/-- `executeBridgeTransaction` (bridgeService.ts lines 514-672).
Validation first (line 521, before config resolution and before any
remote call); then account fetch, transaction build, the early success
return of lines 565-593 when the bridge completed inside the build, else
the backend sign-and-submit path of lines 596-667.  Thrown errors carry
the wrapping added by the catch blocks at lines 659 and 668. -/
def executeBridgeTransaction (env : ActorEnv) (p : BridgeParams) (network : String)
    (hasActor : Bool) (window0 windowUrl0 : Option String) : Outcome :=
  match validateBridgeParams p with
  | some err =>
    { result := Except.error err, events := [], progress := [],
      window := window0, windowUrl := windowUrl0 }
  | none =>
    let config := getBridgeConfig network
    match env.horizonAccount with
    | none =>
      { result := Except.error ("Transaction building failed: " ++ env.horizonError)
        events := [Event.horizonGetAccount p.userAddress]
        progress := [10, 25, 30], window := window0, windowUrl := windowUrl0 }
    | some accSeq =>
      let b := buildStellarTransaction env p config hasActor window0 windowUrl0
      let events1 := Event.horizonGetAccount p.userAddress :: b.events
      let progress1 := [10, 25, 30, 40] ++ b.progress ++ [25]
      if b.result.bridgeCompleted && truthy b.result.holeskyTxHash then
        let hol := b.result.holeskyTxHash.getD ""
        { result := Except.ok
            { success := true
              hash := hol
              message := "Bridge transaction completed successfully"
              explorerUrl := getChainExplorerUrl p.destChain hol
              contractDetails :=
                { contractId := config.contractId, sequenceNumber := accSeq,
                  network := config.network, userAddress := p.userAddress,
                  transactionXDR := some b.result.transactionXDR,
                  lockHash := b.result.lockTxHash }
              bridgeDetails :=
                { fromChain := "Stellar", toChain := getChainName p.destChain,
                  amount := p.amount, token := p.destToken,
                  recipient := p.recipientAddress, contractExecution := true } }
          events := events1, progress := progress1,
          window := b.window, windowUrl := b.windowUrl }
      else if hasActor then
        let events2 := events1 ++
          [Event.signTransactionStellar p.userAddress b.result.transactionXDR network]
        match env.signResp with
        | some signedXdr =>
          let events3 := events2 ++ [Event.submitTransaction signedXdr network]
          match env.submitResp with
          | some subHash =>
            let finalHash := jsOrStr b.window (jsOrStr subHash "stellar_tx_demo")
            { result := Except.ok
                { success := true
                  hash := finalHash
                  message := if truthy b.window then "Bridge transaction completed successfully"
                             else "Soroban lock contract executed successfully"
                  explorerUrl := jsOrStr b.windowUrl
                    ("https://stellar.expert/explorer/" ++ config.network ++ "/tx/" ++
                      jsOrStr subHash "demo")
                  contractDetails :=
                    { contractId := config.contractId, sequenceNumber := accSeq,
                      network := config.network, userAddress := p.userAddress,
                      transactionXDR := some b.result.transactionXDR, lockHash := none }
                  bridgeDetails :=
                    { fromChain := "Stellar", toChain := getChainName p.destChain,
                      amount := p.amount, token := p.destToken,
                      recipient := p.recipientAddress, contractExecution := true } }
              events := events3, progress := progress1 ++ [60, 80, 90, 100],
              window := b.window, windowUrl := b.windowUrl }
          | none =>
            { result := Except.error
                ("Transaction building failed: Transaction signing/submission failed: " ++
                  "Transaction submission failed: " ++ env.submitErr)
              events := events3, progress := progress1 ++ [60, 80, 90],
              window := b.window, windowUrl := b.windowUrl }
        | none =>
          { result := Except.error
              ("Transaction building failed: Transaction signing/submission failed: " ++
                "Transaction signing failed: " ++ env.signErr)
            events := events2, progress := progress1 ++ [60, 80],
            window := b.window, windowUrl := b.windowUrl }
      else
        { result := Except.error "Transaction building failed: Backend not available for transaction signing"
          events := events1, progress := progress1,
          window := b.window, windowUrl := b.windowUrl }

/-! ### Ordered-rule-list views of the validator

`orderedChecks` lists the source's seven checks in source order;
`firstFailure` is the generic short-circuiting combinator.
`claimedOrderedChecks` is modelled from the claim's wording instead: its
fifth rule additionally requires `destChain` to be consistent with
`destToken` per the static whitelist (`getSupportedTokens`, lines
700-703). -/

/-- Short-circuit on the first failing rule. -/
def firstFailure : List (Option String) → Option String
  | [] => none
  | some e :: _ => some e
  | none :: rest => firstFailure rest

/-- The seven checks of `validateBridgeParams`, in source order. -/
def orderedChecks (p : BridgeParams) : List (Option String) :=
  [ if p.userAddress = "" then some "User address is required" else none,
    if p.fromToken = "" ∨ p.fromToken ≠ "XLM" then some "Only XLM token is supported" else none,
    if p.destToken = "" ∨ (p.destToken ≠ "HOLSKEY" ∧ p.destToken ≠ "BASE") then
      some "Only HOLSKEY and BASE tokens are supported" else none,
    if p.amount = 0 ∨ p.amount ≤ 0 then some "Amount must be greater than 0" else none,
    if p.destChain = "" ∨ (p.destChain ≠ "17000" ∧ p.destChain ≠ "8453") then
      some "Only Holsky Testnet (17000) and Base Mainnet (8453) are supported" else none,
    if p.recipientAddress = "" then some "Recipient address is required" else none,
    if (p.destChain = "17000" ∨ p.destChain = "8453") ∧ isEvmAddress p.recipientAddress = false then
      some ("Invalid recipient address format for " ++
        (if p.destChain = "17000" then "Holsky Testnet" else "Base Mainnet")) else none ]

/-- The static whitelist of `getSupportedTokens` (lines 700-703):
HOLSKEY lives on chain 17000 only, BASE on chain 8453 only. -/
def tokenChainConsistent (destToken destChain : String) : Bool :=
  (destToken == "HOLSKEY" && destChain == "17000") ||
    (destToken == "BASE" && destChain == "8453")

/-- Modelled from the claim's wording: the same ordered rule list, but
with the fifth check requiring `destChain` to be in the supported set AND
consistent with `destToken`. -/
def claimedOrderedChecks (p : BridgeParams) : List (Option String) :=
  [ if p.userAddress = "" then some "User address is required" else none,
    if p.fromToken = "" ∨ p.fromToken ≠ "XLM" then some "Only XLM token is supported" else none,
    if p.destToken = "" ∨ (p.destToken ≠ "HOLSKEY" ∧ p.destToken ≠ "BASE") then
      some "Only HOLSKEY and BASE tokens are supported" else none,
    if p.amount = 0 ∨ p.amount ≤ 0 then some "Amount must be greater than 0" else none,
    if ¬ ((p.destChain = "17000" ∨ p.destChain = "8453") ∧
        tokenChainConsistent p.destToken p.destChain = true) then
      some "Destination chain unsupported or inconsistent with destination token" else none,
    if p.recipientAddress = "" then some "Recipient address is required" else none,
    if (p.destChain = "17000" ∨ p.destChain = "8453") ∧ isEvmAddress p.recipientAddress = false then
      some ("Invalid recipient address format for " ++
        (if p.destChain = "17000" then "Holsky Testnet" else "Base Mainnet")) else none ]

/-! ### Concrete attempt inputs used by the counterexamples and witnesses -/

/-- A syntactically valid EVM recipient address (`0x` + 40 hex chars). -/
def evmAddrA : String := "0xaaaaaaaaaaaaaaaaaaaaaaaaaaaaaaaaaaaaaaaa"

/-- Request for the double-submission run. -/
def pC1 : BridgeParams :=
  { userAddress := "GC1USER", fromToken := "XLM", destToken := "HOLSKEY", amount := 5,
    destChain := "17000", recipientAddress := evmAddrA }

/-- Environment for the double-submission run: the custodial signer
accepts and submits the lock (hash `lockC1`), the ledger lookup succeeds,
but the index-and-release call returns `Err`. -/
def envC1 : ActorEnv :=
  { rpcPassphrase := "Test SDF Network ; September 2015", rpcSequence := 7,
    horizonAccount := some "6", horizonError := "",
    lockResp := some (some "lockC1"), txLedger := some 777,
    releaseResp := none, signResp := some "signedC1", signErr := "",
    submitResp := some (some "subC1"), submitErr := "" }

/-- The lock transaction built in the double-submission run. -/
def xdrC1 : LockTxn := createLockTransactionXDR envC1 pC1 50000000

/-- The end-to-end request of spec section 8. -/
def pC2 : BridgeParams :=
  { userAddress := "GABC", fromToken := "XLM", destToken := "HOLSKEY", amount := 5,
    destChain := "17000", recipientAddress := "0x8Da1867ab5eE5385dc72f5901bC9Bd16F580d157" }

/-- Environment in which every remote step of the bridge succeeds (the
release returns a `0x`-prefixed destination hash). -/
def envC2 : ActorEnv :=
  { rpcPassphrase := "Test SDF Network ; September 2015", rpcSequence := 12,
    horizonAccount := some "11", horizonError := "",
    lockResp := some (some "lockC2"), txLedger := some 123,
    releaseResp := some "0xrel2", signResp := some "signedC2", signErr := "",
    submitResp := some (some "subC2"), submitErr := "" }

/-- Request for the malformed-release-hash run. -/
def pC3 : BridgeParams :=
  { userAddress := "GC3USER", fromToken := "XLM", destToken := "HOLSKEY", amount := 3,
    destChain := "17000", recipientAddress := evmAddrA }

/-- Environment for the malformed-release-hash run: lock succeeds (hash
`lockC3`), but index-and-release returns a hash without the `0x`
prefix. -/
def envC3 : ActorEnv :=
  { rpcPassphrase := "Test SDF Network ; September 2015", rpcSequence := 9,
    horizonAccount := some "8", horizonError := "",
    lockResp := some (some "lockC3"), txLedger := some 900,
    releaseResp := some "RELC3NOPREFIX", signResp := some "signedC3", signErr := "",
    submitResp := some (some "stellarC3"), submitErr := "" }

/-- The lock transaction built in the malformed-release-hash run. -/
def xdrC3 : LockTxn := createLockTransactionXDR envC3 pC3 30000000

/-- A request whose destToken (HOLSKEY, chain 17000 only) is inconsistent
with its destChain (8453), every individual check passing. -/
def pC4 : BridgeParams :=
  { userAddress := "GC4USER", fromToken := "XLM", destToken := "HOLSKEY", amount := 1,
    destChain := "8453", recipientAddress := evmAddrA }

/-- The other inconsistent pair: BASE (chain 8453 only) with chain
17000. -/
def pC4b : BridgeParams :=
  { userAddress := "GC4BUSER", fromToken := "XLM", destToken := "BASE", amount := 7,
    destChain := "17000", recipientAddress := evmAddrA }

/-- A request with amount 0 (JS-falsy), otherwise valid. -/
def pC5 : BridgeParams :=
  { userAddress := "GC5USER", fromToken := "XLM", destToken := "BASE", amount := 0,
    destChain := "8453", recipientAddress := evmAddrA }

/-- Any environment; the validation-failure path must not consult it. -/
def envC5 : ActorEnv :=
  { rpcPassphrase := "Test SDF Network ; September 2015", rpcSequence := 3,
    horizonAccount := some "2", horizonError := "boom",
    lockResp := none, txLedger := none,
    releaseResp := none, signResp := none, signErr := "se",
    submitResp := none, submitErr := "sub" }

/-- Inconsistent pair used against the ordered-check claim: BASE with
chain 17000. -/
def pC6 : BridgeParams :=
  { userAddress := "GC6USER", fromToken := "XLM", destToken := "BASE", amount := 2,
    destChain := "17000", recipientAddress := evmAddrA }

/-- Request for the sequence-number witness run. -/
def pC8 : BridgeParams :=
  { userAddress := "GC8USER", fromToken := "XLM", destToken := "BASE", amount := 4,
    destChain := "8453", recipientAddress := evmAddrA }

/-- Environment for the sequence-number witness run: the Horizon account
fetch returns sequence string `40`, the Soroban RPC account fetch returns
sequence 41; the lock is submitted and the release fails, driving the
attempt through both submission events. -/
def envC8 : ActorEnv :=
  { rpcPassphrase := "Test SDF Network ; September 2015", rpcSequence := 41,
    horizonAccount := some "40", horizonError := "",
    lockResp := some (some "lockC8"), txLedger := some 55,
    releaseResp := none, signResp := some "signedC8", signErr := "",
    submitResp := some (some "subC8"), submitErr := "" }

/-! ### Helper lemmas -/

theorem hexChar_hexVal {c : Char} (h : isLowerHexDigit c = true) : hexChar (hexVal c) = c := by
  have hm : c ∈ lowerHexDigits := of_decide_eq_true h
  fin_cases hm <;> decide

theorem hexVal_lt_sixteen {c : Char} (h : isLowerHexDigit c = true) : hexVal c < 16 := by
  have hm : c ∈ lowerHexDigits := of_decide_eq_true h
  fin_cases hm <;> decide

theorem bytesToHexChars_decodePairs :
    ∀ l : List Char, l.all isLowerHexDigit = true → l.length % 2 = 0 →
      bytesToHexChars (decodePairs l) = l
  | [], _, _ => rfl
  | [_], _, h2 => by simp at h2
  | a :: b :: rest, h, h2 => by
    simp only [List.all_cons, Bool.and_eq_true] at h
    have h2' : rest.length % 2 = 0 := by
      simp only [List.length_cons] at h2; omega
    have ih := bytesToHexChars_decodePairs rest h.2.2 h2'
    have hb16 := hexVal_lt_sixteen h.2.1
    have hdiv : (hexVal a * 16 + hexVal b) / 16 = hexVal a := by omega
    have hmod : (hexVal a * 16 + hexVal b) % 16 = hexVal b := by omega
    show hexChar ((hexVal a * 16 + hexVal b) / 16) ::
        hexChar ((hexVal a * 16 + hexVal b) % 16) :: bytesToHexChars (decodePairs rest) =
      a :: b :: rest
    rw [hdiv, hmod, hexChar_hexVal h.1, hexChar_hexVal h.2.1, ih]

theorem isEvmAddress_ne_empty {s : String} (h : isEvmAddress s = true) : s ≠ "" := by
  intro he
  subst he
  simp [isEvmAddress] at h

/-! ### Claim theorems -/

/-- Claim C7 (as stated) is false: the destination chain id "17000"
consists of hexadecimal digits only (so the claim requires hex decoding
and a hex round-trip), yet `toBytes` returns its UTF-8 bytes, whose hex
re-encoding is "3137303030", not "17000": `hexToBytes` rejects odd-length
digit strings and `toBytes` falls through to UTF-8. -/
theorem toBytes_odd_hex_utf8_cex :
    "17000".data.all isHexDigitAny = true ∧ starts0x "17000" = false ∧
    toBytes "17000" = utf8Encode "17000" ∧ utf8Encode "17000" = [49, 55, 48, 48, 48] ∧
    bytesToHex (toBytes "17000") = "3137303030" := by
  decide

/-- Claim C7, amended: a string passing the hex guard of `toBytes` whose
lowercased, `0x`-stripped form is even-length hexadecimal is hex-decoded,
and re-encoding the bytes as hex returns that lowercased stripped string
(round trip up to case and the `0x` prefix); every other string — whether
it fails the guard or makes `hexToBytes` throw (odd length, mixed-case
prefix) — is UTF-8 encoded instead of raising an error. -/
theorem toBytes_hex_roundtrip_and_utf8_fallback :
    (∀ s bs, hexGuard s = true → hexToBytes s = some bs →
      toBytes s = bs ∧ bytesToHex bs = strip0x (lowerStr s)) ∧
    (∀ s, hexGuard s = false ∨ hexToBytes s = none → toBytes s = utf8Encode s) := by
  constructor
  · intro s bs hg hdec
    have hbs : toBytes s = bs := by simp [toBytes, hg, hdec]
    refine ⟨hbs, ?_⟩
    unfold hexToBytes at hdec
    split at hdec
    · rename_i hcond
      obtain ⟨rfl⟩ := Option.some.injEq _ _ ▸ hdec
      unfold bytesToHex
      rw [bytesToHexChars_decodePairs _ hcond.1 hcond.2]
    · exact absurd hdec (by simp)
  · intro s h
    rcases h with h | h
    · simp [toBytes, h]
    · cases hg : hexGuard s
      · simp [toBytes, hg]
      · simp [toBytes, hg, h]

/-- Witness for `toBytes_hex_roundtrip_and_utf8_fallback`, at the
`0x`-prefixed upper-case hex input "0xAB12" and at the non-hex input
"hello". -/
theorem toBytes_hex_roundtrip_and_utf8_fallback_witness :
    (toBytes "0xAB12" = [171, 18] ∧ bytesToHex [171, 18] = strip0x (lowerStr "0xAB12")) ∧
    toBytes "hello" = utf8Encode "hello" :=
  ⟨toBytes_hex_roundtrip_and_utf8_fallback.1 "0xAB12" [171, 18] (by decide) (by decide),
   toBytes_hex_roundtrip_and_utf8_fallback.2 "hello" (Or.inl (by decide))⟩

/-- Claim C9: `getBridgeConfig` is a pure total function; the input
"stellar-mainnet" yields the mainnet configuration, every other string
yields the testnet configuration (testnet rpcUrl and the
"Test SDF Network ; September 2015" passphrase). -/
theorem getBridgeConfig_total_fallback :
    getBridgeConfig "stellar-mainnet" =
      { contractId := "CDTA5IYGUGRI4PAGXJL7TPBEIC3EZY6V23ILF5EDVXFVLCGGMVOK4CRL",
        network := "mainnet", rpcUrl := "https://soroban-mainnet.stellar.org",
        networkPassphrase := "Public Global Stellar Network ; September 2015" } ∧
    ∀ network, network ≠ "stellar-mainnet" → getBridgeConfig network =
      { contractId := "CDTA5IYGUGRI4PAGXJL7TPBEIC3EZY6V23ILF5EDVXFVLCGGMVOK4CRL",
        network := "testnet", rpcUrl := "https://soroban-testnet.stellar.org",
        networkPassphrase := "Test SDF Network ; September 2015" } := by
  constructor
  · decide
  · intro network h
    simp [getBridgeConfig, h]

/-- Witness for `getBridgeConfig_total_fallback` at an unknown network
name. -/
theorem getBridgeConfig_total_fallback_witness :
    getBridgeConfig "unknown-net" =
      { contractId := "CDTA5IYGUGRI4PAGXJL7TPBEIC3EZY6V23ILF5EDVXFVLCGGMVOK4CRL",
        network := "testnet", rpcUrl := "https://soroban-testnet.stellar.org",
        networkPassphrase := "Test SDF Network ; September 2015" } :=
  getBridgeConfig_total_fallback.2 "unknown-net" (by decide)

/-- Claim C10: the resolved bridge contract id is the same constant for
every network input, and the `StellarBridgeService` constructor defaults
to the same id. -/
theorem contractId_constant :
    (∀ network, (getBridgeConfig network).contractId =
      "CDTA5IYGUGRI4PAGXJL7TPBEIC3EZY6V23ILF5EDVXFVLCGGMVOK4CRL") ∧
    constructorDefaultBridge none =
      "CDTA5IYGUGRI4PAGXJL7TPBEIC3EZY6V23ILF5EDVXFVLCGGMVOK4CRL" :=
  ⟨fun _ => rfl, rfl⟩

/-- Claim C4 (as stated) is false: the request `pC4` pairs destToken
HOLSKEY (whitelisted for chain 17000 only) with destChain 8453, yet
`validateBridgeParams` returns no error — the validator never checks
mutual consistency. -/
theorem inconsistent_pair_passes_validation :
    pC4.destToken = "HOLSKEY" ∧ pC4.destChain = "8453" ∧
    validateBridgeParams pC4 = none := by
  decide

/-- Claim C4, amended: requests whose destChain/destToken are mutually
inconsistent per the static whitelist but individually whitelisted pass
validation (`validateBridgeParams` returns no error); no mutual
consistency check exists. -/
theorem validation_ignores_token_chain_consistency :
    ∀ p : BridgeParams, p.userAddress ≠ "" → p.fromToken = "XLM" → 0 < p.amount →
    isEvmAddress p.recipientAddress = true →
    ((p.destToken = "HOLSKEY" ∧ p.destChain = "8453") ∨
      (p.destToken = "BASE" ∧ p.destChain = "17000")) →
    validateBridgeParams p = none := by
  intro p hu hf ha hr hpair
  have ha0 : p.amount ≠ 0 := ne_of_gt ha
  have ha1 : ¬ p.amount ≤ 0 := not_le.mpr ha
  have hrne : p.recipientAddress ≠ "" := isEvmAddress_ne_empty hr
  rcases hpair with ⟨h1, h2⟩ | ⟨h1, h2⟩ <;>
    simp [validateBridgeParams, hu, hf, ha0, ha1, hrne, h1, h2, hr]

/-- Witness for `validation_ignores_token_chain_consistency` at the
inconsistent pair (BASE, 17000). -/
theorem validation_ignores_token_chain_consistency_witness :
    validateBridgeParams pC4b = none :=
  validation_ignores_token_chain_consistency pC4b (by decide) (by decide) (by decide)
    (by decide) (Or.inr (by decide))

/-- Claim C6 (as stated) is false: the claim's ordered rule list makes
check 5 require destChain to be consistent with destToken, so it rejects
`pC6` (BASE with chain 17000), but the code's validator accepts it. -/
theorem ordered_checks_consistency_cex :
    validateBridgeParams pC6 = none ∧
    (firstFailure (claimedOrderedChecks pC6)).isSome = true := by
  decide

/-- Claim C6, amended: `validateBridgeParams` is exactly the
short-circuiting first-failure of the source's ordered rule list —
userAddress present; fromToken = XLM; destToken in {HOLSKEY, BASE};
amount > 0; destChain in {17000, 8453} (membership only, consistency with
destToken is not checked); recipientAddress present; EVM address format —
returning the first violated rule's message and never validating past a
failure. -/
theorem validate_eq_firstFailure_orderedChecks :
    ∀ p : BridgeParams, validateBridgeParams p = firstFailure (orderedChecks p) := by
  intro p
  by_cases c1 : p.userAddress = ""
  · simp [validateBridgeParams, orderedChecks, firstFailure, c1]
  by_cases c2 : p.fromToken = "" ∨ p.fromToken ≠ "XLM"
  · simp [validateBridgeParams, orderedChecks, firstFailure, c1, c2]
  by_cases c3 : p.destToken = "" ∨ (p.destToken ≠ "HOLSKEY" ∧ p.destToken ≠ "BASE")
  · simp [validateBridgeParams, orderedChecks, firstFailure, c1, c2, c3]
  by_cases c4 : p.amount = 0 ∨ p.amount ≤ 0
  · simp [validateBridgeParams, orderedChecks, firstFailure, c1, c2, c3, c4]
  by_cases c5 : p.destChain = "" ∨ (p.destChain ≠ "17000" ∧ p.destChain ≠ "8453")
  · simp [validateBridgeParams, orderedChecks, firstFailure, c1, c2, c3, c4, c5]
  by_cases c6 : p.recipientAddress = ""
  · simp [validateBridgeParams, orderedChecks, firstFailure, c1, c2, c3, c4, c5, c6]
  by_cases c7 : (p.destChain = "17000" ∨ p.destChain = "8453") ∧
      isEvmAddress p.recipientAddress = false
  · simp [validateBridgeParams, orderedChecks, firstFailure, c1, c2, c3, c4, c5, c6, c7]
  · simp [validateBridgeParams, orderedChecks, firstFailure, c1, c2, c3, c4, c5, c6, c7]

/-- Claim C5: whenever `validateBridgeParams` returns an error, the
orchestrator throws exactly that error and performs no remote call and no
progress emission (validation precedes config resolution and every
network access); in particular every request with amount ≤ 0, and every
request whose recipient fails the EVM address pattern, is rejected by
validation. -/
theorem validation_failure_blocks_network_calls :
    ∀ (env : ActorEnv) (p : BridgeParams) (network : String) (hasActor : Bool)
      (w0 wu0 : Option String),
    (∀ err, validateBridgeParams p = some err →
      executeBridgeTransaction env p network hasActor w0 wu0 =
        { result := Except.error err, events := [], progress := [],
          window := w0, windowUrl := wu0 }) ∧
    (p.amount ≤ 0 → (validateBridgeParams p).isSome = true) ∧
    (isEvmAddress p.recipientAddress = false → (validateBridgeParams p).isSome = true) := by
  intro env p network hasActor w0 wu0
  refine ⟨?_, ?_, ?_⟩
  · intro err h
    simp [executeBridgeTransaction, h]
  · intro hle
    have hcond : p.amount = 0 ∨ p.amount ≤ 0 := Or.inr hle
    by_cases c1 : p.userAddress = ""
    · simp [validateBridgeParams, c1]
    by_cases c2 : p.fromToken = "" ∨ p.fromToken ≠ "XLM"
    · simp [validateBridgeParams, c1, c2]
    by_cases c3 : p.destToken = "" ∨ (p.destToken ≠ "HOLSKEY" ∧ p.destToken ≠ "BASE")
    · simp [validateBridgeParams, c1, c2, c3]
    · unfold validateBridgeParams
      rw [if_neg c1, if_neg c2, if_neg c3, if_pos hcond]
      rfl
  · intro hev
    by_cases c1 : p.userAddress = ""
    · simp [validateBridgeParams, c1]
    by_cases c2 : p.fromToken = "" ∨ p.fromToken ≠ "XLM"
    · simp [validateBridgeParams, c1, c2]
    by_cases c3 : p.destToken = "" ∨ (p.destToken ≠ "HOLSKEY" ∧ p.destToken ≠ "BASE")
    · simp [validateBridgeParams, c1, c2, c3]
    by_cases c4 : p.amount = 0 ∨ p.amount ≤ 0
    · simp [validateBridgeParams, c1, c2, c3, c4]
    by_cases c5 : p.destChain = "" ∨ (p.destChain ≠ "17000" ∧ p.destChain ≠ "8453")
    · simp [validateBridgeParams, c1, c2, c3, c4, c5]
    by_cases c6 : p.recipientAddress = ""
    · simp [validateBridgeParams, c1, c2, c3, c4, c5, c6]
    · have hds : p.destChain = "17000" ∨ p.destChain = "8453" := by
        by_cases hd : p.destChain = "17000"
        · exact Or.inl hd
        · push_neg at c5
          exact Or.inr (c5.2 hd)
      have hc7 : (p.destChain = "17000" ∨ p.destChain = "8453") ∧
          isEvmAddress p.recipientAddress = false := ⟨hds, hev⟩
      unfold validateBridgeParams
      rw [if_neg c1, if_neg c2, if_neg c3, if_neg c4, if_neg c5, if_neg c6, if_pos hc7]
      rfl

/-- Witness for `validation_failure_blocks_network_calls`: the amount-0
request is rejected with the amount message, no remote call recorded. -/
theorem validation_failure_blocks_network_calls_witness :
    executeBridgeTransaction envC5 pC5 "testnet" true none none =
      { result := Except.error "Amount must be greater than 0", events := [], progress := [],
        window := none, windowUrl := none } ∧
    (validateBridgeParams pC5).isSome = true :=
  ⟨(validation_failure_blocks_network_calls envC5 pC5 "testnet" true none none).1
      "Amount must be greater than 0" (by decide),
   (validation_failure_blocks_network_calls envC5 pC5 "testnet" true none none).2.1
      (by decide)⟩

/-- Shape of every `buildStellarTransaction` outcome: either it fell
through to the plain return object (no completion flag, no hashes,
progress a prefix of 30/40/50), or the bridge completed inside the build
with a truthy destination hash and progress 30/40/50/70/90/100. -/
theorem build_shape (env : ActorEnv) (p : BridgeParams) (config : BridgeConfig)
    (a : Bool) (w wu : Option String) :
    ((buildStellarTransaction env p config a w wu).result.bridgeCompleted = false ∧
      (buildStellarTransaction env p config a w wu).result.holeskyTxHash = none ∧
      (buildStellarTransaction env p config a w wu).progress ∈
        ([[], [30], [30, 40], [30, 40, 50]] : List (List Nat))) ∨
    ((buildStellarTransaction env p config a w wu).result.bridgeCompleted = true ∧
      truthy (buildStellarTransaction env p config a w wu).result.holeskyTxHash = true ∧
      (buildStellarTransaction env p config a w wu).progress = [30, 40, 50, 70, 90, 100]) := by
  simp only [buildStellarTransaction]
  split
  · split
    · split
      · split
        · split
          · split
            · rename_i h
              exact Or.inr ⟨rfl, by simp only [truthy, bne_iff_ne]; exact h.1, rfl⟩
            · exact Or.inl ⟨rfl, rfl, by simp⟩
          · exact Or.inl ⟨rfl, rfl, by simp⟩
        · exact Or.inl ⟨rfl, rfl, by simp⟩
      · exact Or.inl ⟨rfl, rfl, by simp⟩
    · exact Or.inl ⟨rfl, rfl, by simp⟩
    · exact Or.inl ⟨rfl, rfl, by simp⟩
  · exact Or.inl ⟨rfl, rfl, by simp⟩

/-- Claim C2 (as stated) is false: in the fully successful bridge run
`envC2`/`pC2` the attempt succeeds, yet the emitted progress sequence is
10, 25, 30, 40, 30, 40, 50, 70, 90, 100, 25 — it regresses from 40 back
to 30 and its last emitted value is 25, not 100 (the stray
`onProgress(25)` of line 561 runs after the build completed). -/
theorem progress_not_monotone_on_success :
    (executeBridgeTransaction envC2 pC2 "testnet" true none none).result.isOk = true ∧
    (executeBridgeTransaction envC2 pC2 "testnet" true none none).progress =
      [10, 25, 30, 40, 30, 40, 50, 70, 90, 100, 25] ∧
    (executeBridgeTransaction envC2 pC2 "testnet" true none none).progress.getLast? = some 25 ∧
    ¬ List.Pairwise (· ≤ ·) (executeBridgeTransaction envC2 pC2 "testnet" true none none).progress := by
  decide

/-- Claim C2, amended: every progress value emitted during a bridge
attempt is an integer in [0, 100], and every successful attempt emits 100
at some point; the sequence however is not non-decreasing and its final
value need not be 100. -/
theorem progress_bounded_and_reaches_100 :
    ∀ (env : ActorEnv) (p : BridgeParams) (network : String) (hasActor : Bool)
      (w0 wu0 : Option String),
    (∀ x ∈ (executeBridgeTransaction env p network hasActor w0 wu0).progress, x ≤ 100) ∧
    ((executeBridgeTransaction env p network hasActor w0 wu0).result.isOk = true →
      100 ∈ (executeBridgeTransaction env p network hasActor w0 wu0).progress) := by
  intro env p network hasActor w0 wu0
  cases hval : validateBridgeParams p with
  | some err =>
    constructor
    · intro x hx
      simp [executeBridgeTransaction, hval] at hx
    · intro hok
      simp [executeBridgeTransaction, hval, Except.isOk, Except.toBool] at hok
  | none =>
    cases hacc : env.horizonAccount with
    | none =>
      constructor
      · intro x hx
        simp [executeBridgeTransaction, hval, hacc] at hx
        rcases hx with rfl | rfl | rfl <;> decide
      · intro hok
        simp [executeBridgeTransaction, hval, hacc, Except.isOk, Except.toBool] at hok
    | some accSeq =>
      rcases build_shape env p (getBridgeConfig network) hasActor w0 wu0 with
        ⟨hbc, hbh, hbp⟩ | ⟨hbc, hbh, hbp⟩
      · have hcond : ((buildStellarTransaction env p (getBridgeConfig network) hasActor w0 wu0).result.bridgeCompleted &&
            truthy (buildStellarTransaction env p (getBridgeConfig network) hasActor w0 wu0).result.holeskyTxHash) = false := by
          rw [hbc]; rfl
        have hbp' : (buildStellarTransaction env p (getBridgeConfig network) hasActor w0 wu0).progress = [] ∨
            (buildStellarTransaction env p (getBridgeConfig network) hasActor w0 wu0).progress = [30] ∨
            (buildStellarTransaction env p (getBridgeConfig network) hasActor w0 wu0).progress = [30, 40] ∨
            (buildStellarTransaction env p (getBridgeConfig network) hasActor w0 wu0).progress = [30, 40, 50] := by
          simpa using hbp
        cases hasActor with
        | false =>
          constructor
          · intro x hx
            simp [executeBridgeTransaction, hval, hacc, hcond] at hx
            rcases hbp' with h | h | h | h <;> rw [h] at hx <;> simp at hx <;> omega
          · intro hok
            simp [executeBridgeTransaction, hval, hacc, hcond, Except.isOk, Except.toBool] at hok
        | true =>
          cases hs : env.signResp with
          | none =>
            constructor
            · intro x hx
              simp [executeBridgeTransaction, hval, hacc, hcond, hs] at hx
              rcases hbp' with h | h | h | h <;> rw [h] at hx <;> simp at hx <;> omega
            · intro hok
              simp [executeBridgeTransaction, hval, hacc, hcond, hs, Except.isOk, Except.toBool] at hok
          | some sg =>
            cases hsub : env.submitResp with
            | none =>
              constructor
              · intro x hx
                simp [executeBridgeTransaction, hval, hacc, hcond, hs, hsub] at hx
                rcases hbp' with h | h | h | h <;> rw [h] at hx <;> simp at hx <;> omega
              · intro hok
                simp [executeBridgeTransaction, hval, hacc, hcond, hs, hsub, Except.isOk,
                  Except.toBool] at hok
            | some sh =>
              constructor
              · intro x hx
                simp [executeBridgeTransaction, hval, hacc, hcond, hs, hsub] at hx
                rcases hbp' with h | h | h | h <;> rw [h] at hx <;> simp at hx <;> omega
              · intro hok
                simp [executeBridgeTransaction, hval, hacc, hcond, hs, hsub]
      · have hcond : ((buildStellarTransaction env p (getBridgeConfig network) hasActor w0 wu0).result.bridgeCompleted &&
            truthy (buildStellarTransaction env p (getBridgeConfig network) hasActor w0 wu0).result.holeskyTxHash) = true := by
          rw [hbc, hbh]; rfl
        constructor
        · intro x hx
          simp [executeBridgeTransaction, hval, hacc, hcond, hbp] at hx
          rcases hx with hx | hx <;> omega
        · intro hok
          simp [executeBridgeTransaction, hval, hacc, hcond, hbp]

/-- Witness for `progress_bounded_and_reaches_100` at the fully
successful run. -/
theorem progress_bounded_and_reaches_100_witness :
    (10 : Nat) ≤ 100 ∧
    100 ∈ (executeBridgeTransaction envC2 pC2 "testnet" true none none).progress :=
  ⟨(progress_bounded_and_reaches_100 envC2 pC2 "testnet" true none none).1 10 (by decide),
   (progress_bounded_and_reaches_100 envC2 pC2 "testnet" true none none).2 (by decide)⟩

/-- Claim C1 is right and the code violates it: in the run
`envC1`/`pC1` (validation passes, the custodial signer accepts and
submits the lock transaction `xdrC1` — the `stellarUserLockTxn` event —
and the subsequent index-and-release call fails), the attempt does not
stop: it goes on to call `sign_transaction_stellar` with the very same
serialized lock transaction `xdrC1` and then `submit_transaction`,
re-submitting an already-submitted lock. -/
theorem lock_xdr_resubmitted_after_release_failure :
    validateBridgeParams pC1 = none ∧
    (executeBridgeTransaction envC1 pC1 "testnet" true none none).events =
      [Event.horizonGetAccount "GC1USER", Event.rpcGetNetwork, Event.rpcGetAccount "GC1USER",
       Event.rpcPrepareTransaction, Event.stellarUserLockTxn xdrC1 "testnet",
       Event.horizonGetTransaction "lockC1", Event.fetchStellarEvents 777 "17000",
       Event.signTransactionStellar "GC1USER" xdrC1 "testnet",
       Event.submitTransaction "signedC1" "testnet"] := by
  decide

/-- Claim C3 is right and the code violates it: in the run
`envC3`/`pC3` the index-and-release response is `Ok "RELC3NOPREFIX"` — a
hash without the destination chain's `0x` prefix — yet the attempt does
not terminate as Failed with a ReleaseError: the build falls through
without the lock hash, the same lock transaction `xdrC3` is re-signed and
re-submitted, and the attempt ends success=true with the Stellar
submission hash and `lockHash = none` (the lock hash is not preserved
anywhere in the result). -/
theorem release_failure_not_failed_and_lock_hash_dropped :
    validateBridgeParams pC3 = none ∧
    (executeBridgeTransaction envC3 pC3 "testnet" true none none).result.map (fun r => r.success) =
      Except.ok true ∧
    (executeBridgeTransaction envC3 pC3 "testnet" true none none).result.map
      (fun r => r.contractDetails.lockHash) = Except.ok none ∧
    (executeBridgeTransaction envC3 pC3 "testnet" true none none).result.map (fun r => r.hash) =
      Except.ok "stellarC3" ∧
    (executeBridgeTransaction envC3 pC3 "testnet" true none none).events =
      [Event.horizonGetAccount "GC3USER", Event.rpcGetNetwork, Event.rpcGetAccount "GC3USER",
       Event.rpcPrepareTransaction, Event.stellarUserLockTxn xdrC3 "testnet",
       Event.horizonGetTransaction "lockC3", Event.fetchStellarEvents 900 "17000",
       Event.signTransactionStellar "GC3USER" xdrC3 "testnet",
       Event.submitTransaction "signedC3" "testnet"] := by
  decide

/-- In every branch, the serialized transaction carried by the build
result embeds the sequence number answered by the Soroban RPC account
fetch of this attempt. -/
theorem build_xdr_seq (env : ActorEnv) (p : BridgeParams) (config : BridgeConfig)
    (a : Bool) (w wu : Option String) :
    (buildStellarTransaction env p config a w wu).result.transactionXDR.sequence =
      env.rpcSequence := by
  simp only [buildStellarTransaction]
  split
  · split
    · split
      · split
        · split
          · split
            · rfl
            · rfl
          · rfl
        · rfl
      · rfl
    · rfl
    · rfl
  · rfl

/-- The remote calls of `buildStellarTransaction` start with the three
RPC round-trips of `createLockTransactionXDR`; no later call of the build
is an account fetch, every lock submission of the build carries the
RPC-fetched sequence, and the build itself never calls the backend
signer. -/
theorem build_events_shape (env : ActorEnv) (p : BridgeParams) (config : BridgeConfig)
    (a : Bool) (w wu : Option String) :
    ∃ tail,
      (buildStellarTransaction env p config a w wu).events =
        Event.rpcGetNetwork :: Event.rpcGetAccount p.userAddress ::
          Event.rpcPrepareTransaction :: tail ∧
      (∀ e ∈ tail, (∀ s, e ≠ Event.horizonGetAccount s) ∧ (∀ s, e ≠ Event.rpcGetAccount s)) ∧
      (∀ xdr net, Event.stellarUserLockTxn xdr net ∈ tail → xdr.sequence = env.rpcSequence) ∧
      (∀ u xdr net, Event.signTransactionStellar u xdr net ∈ tail → False) := by
  simp only [buildStellarTransaction]
  split
  · split
    · split
      · split
        · split
          · split
            · refine ⟨_, rfl, ?_, ?_, ?_⟩
              · intro e he
                fin_cases he <;> simp
              · intro xdr net hmem
                simp at hmem
                obtain ⟨h1, h2⟩ := hmem
                subst h1
                rfl
              · intro u xdr net hmem
                simp at hmem
            · refine ⟨_, rfl, ?_, ?_, ?_⟩
              · intro e he
                fin_cases he <;> simp
              · intro xdr net hmem
                simp at hmem
                obtain ⟨h1, h2⟩ := hmem
                subst h1
                rfl
              · intro u xdr net hmem
                simp at hmem
          · refine ⟨_, rfl, ?_, ?_, ?_⟩
            · intro e he
              fin_cases he <;> simp
            · intro xdr net hmem
              simp at hmem
              obtain ⟨h1, h2⟩ := hmem
              subst h1
              rfl
            · intro u xdr net hmem
              simp at hmem
        · refine ⟨_, rfl, ?_, ?_, ?_⟩
          · intro e he
            fin_cases he <;> simp
          · intro xdr net hmem
            simp at hmem
            obtain ⟨h1, h2⟩ := hmem
            subst h1
            rfl
          · intro u xdr net hmem
            simp at hmem
      · refine ⟨_, rfl, ?_, ?_, ?_⟩
        · intro e he
          fin_cases he <;> simp
        · intro xdr net hmem
          simp at hmem
          obtain ⟨h1, h2⟩ := hmem
          subst h1
          rfl
        · intro u xdr net hmem
          simp at hmem
    · refine ⟨_, rfl, ?_, ?_, ?_⟩
      · intro e he
        fin_cases he <;> simp
      · intro xdr net hmem
        simp at hmem
        obtain ⟨h1, h2⟩ := hmem
        subst h1
        rfl
      · intro u xdr net hmem
        simp at hmem
    · refine ⟨_, rfl, ?_, ?_, ?_⟩
      · intro e he
        fin_cases he <;> simp
      · intro xdr net hmem
        simp at hmem
        obtain ⟨h1, h2⟩ := hmem
        subst h1
        rfl
      · intro u xdr net hmem
        simp at hmem
  · refine ⟨[], rfl, ?_, ?_, ?_⟩
    · intro e he
      simp at he
    · intro xdr net hmem
      simp at hmem
    · intro u xdr net hmem
      simp at hmem

/-- Claim C8: for every validated request whose account fetch succeeds,
the attempt performs its two account fetches up front (Horizon first,
then the Soroban RPC fetch, immediately followed by the prepare step that
serializes the transaction), no account fetch happens later in the
attempt, and every serialized lock transaction the attempt submits — to
the custodial signer and to the sign-and-submit fallback alike — embeds
the sequence number answered by that latest (RPC) fetch, never another
value. -/
theorem sequence_from_most_recent_fetch :
    ∀ (env : ActorEnv) (p : BridgeParams) (network : String) (hasActor : Bool)
      (w0 wu0 : Option String) (accSeq : String),
    validateBridgeParams p = none → env.horizonAccount = some accSeq →
    ((executeBridgeTransaction env p network hasActor w0 wu0).events.take 4 =
      [Event.horizonGetAccount p.userAddress, Event.rpcGetNetwork,
       Event.rpcGetAccount p.userAddress, Event.rpcPrepareTransaction]) ∧
    (∀ e ∈ (executeBridgeTransaction env p network hasActor w0 wu0).events.drop 4,
       (∀ s, e ≠ Event.horizonGetAccount s) ∧ (∀ s, e ≠ Event.rpcGetAccount s)) ∧
    (∀ xdr net, Event.stellarUserLockTxn xdr net ∈
        (executeBridgeTransaction env p network hasActor w0 wu0).events →
       xdr.sequence = env.rpcSequence) ∧
    (∀ u xdr net, Event.signTransactionStellar u xdr net ∈
        (executeBridgeTransaction env p network hasActor w0 wu0).events →
       xdr.sequence = env.rpcSequence) := by
  intro env p network hasActor w0 wu0 accSeq hval hacc
  obtain ⟨tail, hbev, htail, hlock, hsign⟩ :=
    build_events_shape env p (getBridgeConfig network) hasActor w0 wu0
  have hxdr := build_xdr_seq env p (getBridgeConfig network) hasActor w0 wu0
  have hshape :
      (executeBridgeTransaction env p network hasActor w0 wu0).events =
        Event.horizonGetAccount p.userAddress ::
          (buildStellarTransaction env p (getBridgeConfig network) hasActor w0 wu0).events ∨
      (executeBridgeTransaction env p network hasActor w0 wu0).events =
        (Event.horizonGetAccount p.userAddress ::
          (buildStellarTransaction env p (getBridgeConfig network) hasActor w0 wu0).events) ++
          [Event.signTransactionStellar p.userAddress
            (buildStellarTransaction env p (getBridgeConfig network) hasActor w0 wu0).result.transactionXDR
            network] ∨
      ∃ sg, (executeBridgeTransaction env p network hasActor w0 wu0).events =
        (Event.horizonGetAccount p.userAddress ::
          (buildStellarTransaction env p (getBridgeConfig network) hasActor w0 wu0).events) ++
          [Event.signTransactionStellar p.userAddress
            (buildStellarTransaction env p (getBridgeConfig network) hasActor w0 wu0).result.transactionXDR
            network,
           Event.submitTransaction sg network] := by
    by_cases hcond : ((buildStellarTransaction env p (getBridgeConfig network) hasActor w0 wu0).result.bridgeCompleted &&
        truthy (buildStellarTransaction env p (getBridgeConfig network) hasActor w0 wu0).result.holeskyTxHash) = true
    · exact Or.inl (by simp [executeBridgeTransaction, hval, hacc, hcond])
    · cases hasActor with
      | false => exact Or.inl (by simp [executeBridgeTransaction, hval, hacc, hcond])
      | true =>
        cases hs : env.signResp with
        | none =>
          exact Or.inr (Or.inl (by simp [executeBridgeTransaction, hval, hacc, hcond, hs]))
        | some sg =>
          cases hsub : env.submitResp with
          | none =>
            exact Or.inr (Or.inr ⟨sg,
              by simp [executeBridgeTransaction, hval, hacc, hcond, hs, hsub]⟩)
          | some sh =>
            exact Or.inr (Or.inr ⟨sg,
              by simp [executeBridgeTransaction, hval, hacc, hcond, hs, hsub]⟩)
  rcases hshape with hev | hev | ⟨sg, hev⟩
  · rw [hev, hbev]
    refine ⟨rfl, ?_, ?_, ?_⟩
    · intro e he
      exact htail e (by simpa using he)
    · intro xdr net hm
      simp at hm
      exact hlock xdr net hm
    · intro u xdr net hm
      simp at hm
      exact (hsign u xdr net hm).elim
  · rw [hev, hbev]
    refine ⟨rfl, ?_, ?_, ?_⟩
    · intro e he
      simp at he
      rcases he with he | he
      · exact htail e he
      · subst he
        simp
    · intro xdr net hm
      simp at hm
      exact hlock xdr net hm
    · intro u xdr net hm
      simp at hm
      rcases hm with hm | ⟨h1, h2, h3⟩
      · exact (hsign u xdr net hm).elim
      · subst h2
        exact hxdr
  · rw [hev, hbev]
    refine ⟨rfl, ?_, ?_, ?_⟩
    · intro e he
      simp at he
      rcases he with he | he | he
      · exact htail e he
      · subst he
        simp
      · subst he
        simp
    · intro xdr net hm
      simp at hm
      exact hlock xdr net hm
    · intro u xdr net hm
      simp at hm
      rcases hm with hm | ⟨h1, h2, h3⟩
      · exact (hsign u xdr net hm).elim
      · subst h2
        exact hxdr

/-- Witness for `sequence_from_most_recent_fetch` at a concrete run. -/
theorem sequence_from_most_recent_fetch_witness :
    (executeBridgeTransaction envC8 pC8 "testnet" true none none).events.take 4 =
      [Event.horizonGetAccount "GC8USER", Event.rpcGetNetwork,
       Event.rpcGetAccount "GC8USER", Event.rpcPrepareTransaction] :=
  (sequence_from_most_recent_fetch envC8 pC8 "testnet" true none none "40"
    (by decide) (by decide)).1

end Kosh
